import Mathlib

/-!
Verification of the cash-flow forecast engine of `src/app.py`
(class `FinanceTracker`).

Shallow embedding conventions:
* Python `float` amounts are modelled as exact rationals (`ℚ`); the code only
  adds and negates amounts, so the algebraic structure is preserved.
* Python `datetime` values are modelled by their date part (`Date` below,
  a proleptic Gregorian triple year/month/day), since the forecast code only
  ever inspects `.day` and `.date()` and steps by whole days
  (`start_date + timedelta(days=day_offset)` with a midnight start).
* Raising `ValueError` is modelled by `Except.error (msg, w)` where `w` is the
  world at the moment of the raise; mutation of the tracker plus the
  write-through `save_data` is modelled by a `World` carrying the tracker and
  a log of persisted snapshots (`saves`), one entry per `save_data()` call.
* `generate_daily_forecast` returns the `forecast_data` list of the source
  (date, that day's applied transactions, running balance) — the claims are
  all about this list; the final `_create_forecast_dataframe` step is
  presentation-only flattening.
-/

namespace App

/-- Gregorian leap-year test, as Python's `calendar`/`datetime` implement it. -/
def isLeapYear (y : Int) : Bool :=
  y % 4 == 0 && (y % 100 != 0 || y % 400 == 0)

/-- Number of days in month `m` of year `y` (proleptic Gregorian calendar). -/
def daysInMonth (y m : Int) : Int :=
  if m == 2 then (if isLeapYear y then 29 else 28)
  else if m == 4 || m == 6 || m == 9 || m == 11 then 30
  else 31

/-- The date part of a Python `datetime`: calendar triple. -/
structure Date where
  year : Int
  month : Int
  day : Int
deriving DecidableEq, Repr

/-- A calendar date is valid when its month and day are in range. -/
def ValidDate (d : Date) : Prop :=
  1 ≤ d.month ∧ d.month ≤ 12 ∧ 1 ≤ d.day ∧ d.day ≤ daysInMonth d.year d.month

instance (d : Date) : Decidable (ValidDate d) := by
  unfold ValidDate; infer_instance

/-- The day after `d` (what `+ timedelta(days=1)` does to the date part). -/
def Date.next (d : Date) : Date :=
  if d.day < daysInMonth d.year d.month then ⟨d.year, d.month, d.day + 1⟩
  else if d.month < 12 then ⟨d.year, d.month + 1, 1⟩
  else ⟨d.year + 1, 1, 1⟩

/-- `d + timedelta(days=n)` on the date part. -/
def Date.addDays (d : Date) : Nat → Date
  | 0 => d
  | n + 1 => (d.addDays n).next

/-- Lexicographic order on dates, as Python compares `date` values;
this is the comparison `sorted(..., key=lambda x: x.date.date())` uses. -/
def Date.ble (a b : Date) : Bool :=
  a.year < b.year ||
    (a.year == b.year &&
      (a.month < b.month || (a.month == b.month && a.day ≤ b.day)))

/-- Strict lexicographic order on dates (the `Prop` counterpart). -/
def Date.lt (a b : Date) : Prop :=
  a.year < b.year ∨
    (a.year = b.year ∧
      (a.month < b.month ∨ (a.month = b.month ∧ a.day < b.day)))

/-- Recurring monthly transaction (dataclass `Transaction` of the source):
day-of-month, positive magnitude, label, display colour. -/
structure Transaction where
  day : Int
  amount : ℚ
  name : String
  color : String
deriving DecidableEq, Repr

/-- One-off dated transaction (dataclass `OneTimeTransaction`): signed
amount, kind tag, label, colour.  The stored `datetime` is modelled by its
date part, the only component the engine reads. -/
structure OneTimeTransaction where
  date : Date
  amount : ℚ
  type : String
  name : String
  color : String
deriving DecidableEq, Repr

/-- The mutable fields of class `FinanceTracker` (the `data_file` path takes
no part in the computations modelled here). -/
structure FinanceTracker where
  initial_balance : ℚ
  current_balance : ℚ
  monthly_incomes : List Transaction
  monthly_expenses : List Transaction
  one_time_transactions : List OneTimeTransaction
deriving DecidableEq, Repr

/-- A tracker plus the log of snapshots persisted by `save_data()`.  Each
call of the Python method `save_data` appends the tracker state it writes
to `finance_data.json`; an empty suffix means no write was triggered. -/
structure World where
  tracker : FinanceTracker
  saves : List FinanceTracker
deriving DecidableEq, Repr

/-- `FinanceTracker.save_data`: persist the current state (modelled as
appending the snapshot to the write log). -/
def save_data (w : World) : World :=
  { w with saves := w.saves ++ [w.tracker] }

/-- `FinanceTracker.add_income`: validated append of a one-time income.
`name` is the Python optional argument (`None` becomes the default label);
the `date or datetime.now()` defaulting happens before this logic, so the
resolved date is a parameter. -/
def add_income (w : World) (amount : ℚ) (date : Date) (name : Option String)
    (color : String) : Except (String × World) World :=
  if amount ≤ 0 then .error ("Income amount must be positive", w)
  else
    .ok (save_data { w with tracker := { w.tracker with one_time_transactions :=
      w.tracker.one_time_transactions ++
        [⟨date, amount, "income", name.getD "One-time Income", color⟩] } })

/-- `FinanceTracker.add_expense`: validated append of a one-time expense;
the stored amount is negated. -/
def add_expense (w : World) (amount : ℚ) (date : Date) (name : Option String)
    (color : String) : Except (String × World) World :=
  if amount ≤ 0 then .error ("Expense amount must be positive", w)
  else
    .ok (save_data { w with tracker := { w.tracker with one_time_transactions :=
      w.tracker.one_time_transactions ++
        [⟨date, -amount, "expense", name.getD "One-time Expense", color⟩] } })

/-- `FinanceTracker.add_monthly_income`: day range check, then amount
check, then append and persist. -/
def add_monthly_income (w : World) (day : Int) (amount : ℚ) (name : String)
    (color : String) : Except (String × World) World :=
  if ¬(1 ≤ day ∧ day ≤ 31) then .error ("Day must be between 1 and 31", w)
  else if amount ≤ 0 then .error ("Income amount must be positive", w)
  else
    .ok (save_data { w with tracker := { w.tracker with monthly_incomes :=
      w.tracker.monthly_incomes ++ [⟨day, amount, name, color⟩] } })

/-- `FinanceTracker.add_monthly_expense`: same checks for expenses. -/
def add_monthly_expense (w : World) (day : Int) (amount : ℚ) (name : String)
    (color : String) : Except (String × World) World :=
  if ¬(1 ≤ day ∧ day ≤ 31) then .error ("Day must be between 1 and 31", w)
  else if amount ≤ 0 then .error ("Expense amount must be positive", w)
  else
    .ok (save_data { w with tracker := { w.tracker with monthly_expenses :=
      w.tracker.monthly_expenses ++ [⟨day, amount, name, color⟩] } })

/-- `FinanceTracker.update_initial_balance`: reject negative balances,
otherwise set both balances and persist. -/
def update_initial_balance (w : World) (balance : ℚ) :
    Except (String × World) World :=
  if balance < 0 then .error ("Initial balance cannot be negative", w)
  else
    .ok (save_data { w with tracker := { w.tracker with
      initial_balance := balance, current_balance := balance } })

/-- One element of the `day_transactions` list built inside
`generate_daily_forecast`: a dict with keys type/name/amount/color. -/
structure DayTx where
  type : String
  name : String
  amount : ℚ
  color : String
deriving DecidableEq, Repr

/-- The dict built for a matching recurring income (amount kept positive). -/
def mkIncomeTx (i : Transaction) : DayTx :=
  ⟨"income", i.name, i.amount, i.color⟩

/-- The dict built for a matching recurring expense (amount negated). -/
def mkExpenseTx (e : Transaction) : DayTx :=
  ⟨"expense", e.name, -e.amount, e.color⟩

/-- The dict built for a matching one-time transaction (amount as stored). -/
def mkOneTimeTx (t : OneTimeTransaction) : DayTx :=
  ⟨t.type, t.name, t.amount, t.color⟩

/-- Stable insertion of a one-time transaction into a list sorted by date:
the inserted element goes before the first strictly later element and after
all elements with an earlier-or-equal date. -/
def insertByDate (x : OneTimeTransaction) :
    List OneTimeTransaction → List OneTimeTransaction
  | [] => [x]
  | y :: ys =>
      if Date.ble x.date y.date then x :: y :: ys else y :: insertByDate x ys

/-- The `sorted(self.one_time_transactions, key=lambda x: x.date.date())`
step: a stable sort ascending by date.  Python's `sorted` is stable, and any
stable sort by the same key produces the same list, so stable insertion sort
is an exact model. -/
def sortByDate : List OneTimeTransaction → List OneTimeTransaction
  | [] => []
  | x :: xs => insertByDate x (sortByDate xs)

/-- The `day_transactions` list assembled for `current_date = d` inside the
loop of `generate_daily_forecast`: matching recurring incomes, then matching
recurring expenses, then matching one-time transactions, in source order.
The redundant `if any(...)` guards of the source are kept. -/
def dayTransactions (mi me : List Transaction)
    (sorted : List OneTimeTransaction) (d : Date) : List DayTx :=
  (if mi.any fun i => i.day == d.day then
    (mi.filter fun i => i.day == d.day).map mkIncomeTx
   else []) ++
  (if me.any fun e => e.day == d.day then
    (me.filter fun e => e.day == d.day).map mkExpenseTx
   else []) ++
  (sorted.filter fun t => t.date == d).map mkOneTimeTx

/-- One element of the `forecast_data` list: date, that day's applied
transactions, and the running balance after applying them. -/
structure ForecastEntry where
  date : Date
  transactions : List DayTx
  balance : ℚ
deriving DecidableEq, Repr

/-- The `for day_offset in range(max_days)` loop of
`generate_daily_forecast`, recursing on the remaining number of days:
build the day's transactions, fold them into the balance, emit the entry,
and stop when the balance has dropped to zero or below. -/
def forecastFrom (mi me : List Transaction) (sorted : List OneTimeTransaction) :
    Date → ℚ → Nat → List ForecastEntry
  | _, _, 0 => []
  | d, bal, n + 1 =>
    let txs := dayTransactions mi me sorted d
    let newBal := txs.foldl (fun b tx => b + tx.amount) bal
    if newBal ≤ 0 then [⟨d, txs, newBal⟩]
    else ⟨d, txs, newBal⟩ :: forecastFrom mi me sorted d.next newBal n

/-- `FinanceTracker.generate_daily_forecast` (the Python default for
`max_days` is 180): pre-sort the one-time transactions, then run the daily
loop seeded with the initial balance, starting from the date part of
`datetime.now()` passed here as `start_date`. -/
def generate_daily_forecast (t : FinanceTracker) (start_date : Date)
    (max_days : Nat) : List ForecastEntry :=
  let sorted_transactions := sortByDate t.one_time_transactions
  forecastFrom t.monthly_incomes t.monthly_expenses sorted_transactions
    start_date t.initial_balance max_days

/-- Sum of the signed amounts of a day's transaction list. -/
def txSum (txs : List DayTx) : ℚ :=
  (txs.map DayTx.amount).sum

/-- The running-balance recurrence: the first entry's balance is the seed
plus the sum of its day's signed amounts, and every later entry's balance is
the previous entry's balance plus the sum of its day's signed amounts. -/
def BalChain (b : ℚ) : List ForecastEntry → Prop
  | [] => True
  | e :: es => e.balance = b + txSum e.transactions ∧ BalChain e.balance es

theorem foldl_add_eq_txSum (txs : List DayTx) (b : ℚ) :
    txs.foldl (fun a tx => a + tx.amount) b = b + txSum txs := by
  induction txs generalizing b with
  | nil => simp [txSum]
  | cons t ts ih =>
    simp only [List.foldl_cons, ih, txSum, List.map_cons, List.sum_cons]
    ring

theorem balChain_forecastFrom (mi me : List Transaction)
    (sorted : List OneTimeTransaction) (n : Nat) :
    ∀ (d : Date) (b : ℚ), BalChain b (forecastFrom mi me sorted d b n) := by
  induction n with
  | zero => intro d b; simp [forecastFrom, BalChain]
  | succ n ih =>
    intro d b
    simp only [forecastFrom]
    split
    · exact ⟨foldl_add_eq_txSum _ b, trivial⟩
    · exact ⟨foldl_add_eq_txSum _ b, ih _ _⟩

theorem balChain_get_zero (b : ℚ) (es : List ForecastEntry)
    (hbc : BalChain b es) (h : 0 < es.length) :
    (es.get ⟨0, h⟩).balance = b + txSum (es.get ⟨0, h⟩).transactions := by
  cases es with
  | nil => simp at h
  | cons e es => exact hbc.1

theorem balChain_get_succ (b : ℚ) (es : List ForecastEntry)
    (hbc : BalChain b es) :
    ∀ (i : Nat) (h : i + 1 < es.length),
      (es.get ⟨i + 1, h⟩).balance =
        (es.get ⟨i, Nat.lt_of_succ_lt h⟩).balance +
          txSum ((es.get ⟨i + 1, h⟩).transactions) := by
  induction es generalizing b with
  | nil => intro i h; simp at h
  | cons e es ih =>
    intro i h
    cases i with
    | zero =>
      cases es with
      | nil => simp at h
      | cons e1 es1 => exact hbc.2.1
    | succ j =>
      exact ih e.balance hbc.2 j (Nat.lt_of_succ_lt_succ h)

/-- C1: in every projection produced by `generate_daily_forecast`, the
running balance of each emitted entry equals the previous entry's balance
plus the sum of the signed amounts applied on that entry's date, and the
balance before the first entry is the initial balance: the entry list forms
a balance chain seeded with `initial_balance`, the first entry's balance is
`initial_balance` plus its day's signed sum, and entry `i+1`'s balance is
entry `i`'s balance plus its day's signed sum. -/
theorem generate_daily_forecast_balance_recurrence
    (t : FinanceTracker) (s : Date) (n : Nat) :
    BalChain t.initial_balance (generate_daily_forecast t s n) ∧
    (∀ h : 0 < (generate_daily_forecast t s n).length,
      ((generate_daily_forecast t s n).get ⟨0, h⟩).balance =
        t.initial_balance +
          txSum (((generate_daily_forecast t s n).get ⟨0, h⟩).transactions)) ∧
    (∀ (i : Nat) (h : i + 1 < (generate_daily_forecast t s n).length),
      ((generate_daily_forecast t s n).get ⟨i + 1, h⟩).balance =
        ((generate_daily_forecast t s n).get
            ⟨i, Nat.lt_of_succ_lt h⟩).balance +
          txSum (((generate_daily_forecast t s n).get
            ⟨i + 1, h⟩).transactions)) := by
  have hbc : BalChain t.initial_balance (generate_daily_forecast t s n) :=
    balChain_forecastFrom _ _ _ n s t.initial_balance
  exact ⟨hbc, fun h => balChain_get_zero _ _ hbc h,
    fun i h => balChain_get_succ _ _ hbc i h⟩

/-- Witness for C1 at a concrete input: one recurring income on the 5th
(never matched in the two projected days), initial balance 10, two
projected days starting 2024-01-01. -/
theorem generate_daily_forecast_balance_recurrence_witness :
    ((generate_daily_forecast ⟨10, 10, [⟨5, 40, "Pay", "green"⟩], [], []⟩
        ⟨2024, 1, 1⟩ 2).get ⟨0, by decide⟩).balance =
      (10 : ℚ) +
        txSum (((generate_daily_forecast
          ⟨10, 10, [⟨5, 40, "Pay", "green"⟩], [], []⟩
            ⟨2024, 1, 1⟩ 2).get ⟨0, by decide⟩).transactions) :=
  (generate_daily_forecast_balance_recurrence
    ⟨10, 10, [⟨5, 40, "Pay", "green"⟩], [], []⟩ ⟨2024, 1, 1⟩ 2).2.1 (by decide)

/-- Every entry of the list except possibly the last has a strictly
positive balance — the shape the early-termination break enforces. -/
def PosButLast : List ForecastEntry → Prop
  | [] => True
  | [_] => True
  | e :: es => 0 < e.balance ∧ PosButLast es

theorem posButLast_cons (e : ForecastEntry) (es : List ForecastEntry)
    (hb : 0 < e.balance) (hp : PosButLast es) : PosButLast (e :: es) := by
  cases es with
  | nil => trivial
  | cons e1 es1 => exact ⟨hb, hp⟩

theorem posButLast_forecastFrom (mi me : List Transaction)
    (sorted : List OneTimeTransaction) (n : Nat) :
    ∀ (d : Date) (b : ℚ), PosButLast (forecastFrom mi me sorted d b n) := by
  induction n with
  | zero => intro d b; simp [forecastFrom, PosButLast]
  | succ n ih =>
    intro d b
    simp only [forecastFrom]
    split
    · trivial
    · rename_i hpos
      exact posButLast_cons _ _ (not_le.mp hpos) (ih _ _)

theorem posButLast_get (es : List ForecastEntry) :
    PosButLast es →
    ∀ (i : Nat) (h : i < es.length),
      (es.get ⟨i, h⟩).balance ≤ 0 → i + 1 = es.length := by
  induction es with
  | nil => intro _ i h; simp at h
  | cons e es ih =>
    intro hp i h hle
    cases es with
    | nil => simp only [List.length_singleton] at h ⊢; omega
    | cons e1 es1 =>
      cases i with
      | zero => exact absurd hle (not_le.mpr hp.1)
      | succ j =>
        have hlen := ih hp.2 j (Nat.lt_of_succ_lt_succ h) hle
        simp only [List.length_cons] at hlen ⊢
        omega

/-- C2: as soon as the running balance is at most zero after applying a
day's transactions, that day's entry is the final one emitted: whenever the
entry at index `i` has balance ≤ 0, index `i` is the last index of the
output, so the terminating day is emitted and no later date appears. -/
theorem generate_daily_forecast_early_termination
    (t : FinanceTracker) (s : Date) (n : Nat) (i : Nat)
    (h : i < (generate_daily_forecast t s n).length)
    (hle : ((generate_daily_forecast t s n).get ⟨i, h⟩).balance ≤ 0) :
    i + 1 = (generate_daily_forecast t s n).length :=
  posButLast_get _ (posButLast_forecastFrom _ _ _ n s t.initial_balance)
    i h hle

/-- Witness for C2: a tracker with zero initial balance and no
transactions terminates at its first projected day. -/
theorem generate_daily_forecast_early_termination_witness :
    0 + 1 = (generate_daily_forecast ⟨0, 0, [], [], []⟩ ⟨2024, 1, 1⟩ 5).length :=
  generate_daily_forecast_early_termination ⟨0, 0, [], [], []⟩ ⟨2024, 1, 1⟩ 5 0
    (by decide) (by decide)

/-- Entries carry consecutive dates: the head is dated `d` and the tail
is dated from the following day. -/
def DatesFrom : Date → List ForecastEntry → Prop
  | _, [] => True
  | d, e :: es => e.date = d ∧ DatesFrom d.next es

theorem datesFrom_forecastFrom (mi me : List Transaction)
    (sorted : List OneTimeTransaction) (n : Nat) :
    ∀ (d : Date) (b : ℚ), DatesFrom d (forecastFrom mi me sorted d b n) := by
  induction n with
  | zero => intro d b; simp [forecastFrom, DatesFrom]
  | succ n ih =>
    intro d b
    simp only [forecastFrom]
    split
    · exact ⟨rfl, trivial⟩
    · exact ⟨rfl, ih _ _⟩

theorem addDays_next (d : Date) (i : Nat) :
    d.next.addDays i = d.addDays (i + 1) := by
  induction i with
  | zero => rfl
  | succ i ih => simp only [Date.addDays, ih]

theorem datesFrom_get (d : Date) (es : List ForecastEntry) :
    DatesFrom d es →
    ∀ (i : Nat) (h : i < es.length), (es.get ⟨i, h⟩).date = d.addDays i := by
  induction es generalizing d with
  | nil => intro _ i h; simp at h
  | cons e es ih =>
    intro hp i h
    cases i with
    | zero => exact hp.1
    | succ j =>
      have := ih d.next hp.2 j (Nat.lt_of_succ_lt_succ h)
      rw [addDays_next] at this
      exact this

theorem forecastFrom_length_le (mi me : List Transaction)
    (sorted : List OneTimeTransaction) (n : Nat) :
    ∀ (d : Date) (b : ℚ), (forecastFrom mi me sorted d b n).length ≤ n := by
  induction n with
  | zero => intro d b; simp [forecastFrom]
  | succ n ih =>
    intro d b
    simp only [forecastFrom]
    split
    · simp
    · simpa using ih _ _

theorem forecastFrom_ne_nil (mi me : List Transaction)
    (sorted : List OneTimeTransaction) (n : Nat) (d : Date) (b : ℚ)
    (hn : 0 < n) : forecastFrom mi me sorted d b n ≠ [] := by
  cases n with
  | zero => exact absurd hn (by omega)
  | succ n =>
    simp only [forecastFrom]
    split <;> simp

theorem one_le_daysInMonth (y m : Int) : 1 ≤ daysInMonth y m := by
  unfold daysInMonth
  split <;> split <;> norm_num

theorem validDate_next (d : Date) (h : ValidDate d) : ValidDate d.next := by
  obtain ⟨h1, h2, h3, h4⟩ := h
  unfold Date.next
  split
  · rename_i hday
    refine ⟨h1, h2, ?_, ?_⟩
    · show (1 : Int) ≤ d.day + 1
      omega
    · show d.day + 1 ≤ daysInMonth d.year d.month
      omega
  · split
    · rename_i hmonth
      refine ⟨?_, ?_, le_refl 1, one_le_daysInMonth _ _⟩
      · show (1 : Int) ≤ d.month + 1
        omega
      · show d.month + 1 ≤ 12
        omega
    · exact ⟨by norm_num, by norm_num, le_refl 1, one_le_daysInMonth _ _⟩

theorem lt_next (d : Date) : Date.lt d d.next := by
  unfold Date.next
  split
  · exact Or.inr ⟨rfl, Or.inr ⟨rfl, lt_add_one d.day⟩⟩
  · split
    · exact Or.inr ⟨rfl, Or.inl (lt_add_one d.month)⟩
    · exact Or.inl (lt_add_one d.year)

theorem date_lt_trans (a b c : Date) (hab : Date.lt a b) (hbc : Date.lt b c) :
    Date.lt a c := by
  unfold Date.lt at hab hbc ⊢
  omega

theorem validDate_addDays (d : Date) (h : ValidDate d) (i : Nat) :
    ValidDate (d.addDays i) := by
  induction i with
  | zero => exact h
  | succ i ih => exact validDate_next _ ih

theorem addDays_lt_addDays (d : Date) :
    ∀ (i j : Nat), i < j → Date.lt (d.addDays i) (d.addDays j) := by
  intro i j hij
  induction j with
  | zero => omega
  | succ j ih =>
    rcases Nat.lt_succ_iff_lt_or_eq.mp hij with hj | hj
    · exact date_lt_trans _ _ _ (ih hj) (lt_next _)
    · subst hj; exact lt_next _

/-- C4: the emitted entries are dated with strictly increasing consecutive
calendar days starting at the start date: the entry at index `i` is dated
exactly `i` days after the start (so there are no gaps and a day with no
transactions still gets its entry), at most `max_days` entries are emitted,
at least one entry is emitted when the horizon is positive, and the dates
are strictly increasing. -/
theorem generate_daily_forecast_consecutive_days
    (t : FinanceTracker) (s : Date) (n : Nat) :
    (∀ (i : Nat) (h : i < (generate_daily_forecast t s n).length),
      ((generate_daily_forecast t s n).get ⟨i, h⟩).date = s.addDays i) ∧
    (generate_daily_forecast t s n).length ≤ n ∧
    (0 < n → generate_daily_forecast t s n ≠ []) ∧
    (∀ (i j : Nat) (hij : i < j)
      (hj : j < (generate_daily_forecast t s n).length),
      Date.lt (((generate_daily_forecast t s n).get
          ⟨i, hij.trans hj⟩).date)
        (((generate_daily_forecast t s n).get ⟨j, hj⟩).date)) := by
  have hdate : ∀ (i : Nat) (h : i < (generate_daily_forecast t s n).length),
      ((generate_daily_forecast t s n).get ⟨i, h⟩).date = s.addDays i := by
    intro i h
    exact datesFrom_get s _
      (datesFrom_forecastFrom t.monthly_incomes t.monthly_expenses
        (sortByDate t.one_time_transactions) n s t.initial_balance) i h
  refine ⟨hdate, ?_, ?_, ?_⟩
  · exact forecastFrom_length_le _ _ _ n s t.initial_balance
  · intro hn
    exact forecastFrom_ne_nil _ _ _ n s t.initial_balance hn
  · intro i j hij hj
    rw [hdate i (hij.trans hj), hdate j hj]
    exact addDays_lt_addDays s i j hij

/-- Witness for C4: three projected days from the valid date 2024-01-01
with a positive balance and no transactions. -/
theorem generate_daily_forecast_consecutive_days_witness :
    generate_daily_forecast ⟨100, 100, [], [], []⟩ ⟨2024, 1, 1⟩ 3 ≠ [] ∧
    Date.lt (((generate_daily_forecast ⟨100, 100, [], [], []⟩
        ⟨2024, 1, 1⟩ 3).get ⟨0, by decide⟩).date)
      (((generate_daily_forecast ⟨100, 100, [], [], []⟩
        ⟨2024, 1, 1⟩ 3).get ⟨2, by decide⟩).date) :=
  ⟨(generate_daily_forecast_consecutive_days
      ⟨100, 100, [], [], []⟩ ⟨2024, 1, 1⟩ 3).2.2.1 (by decide),
   (generate_daily_forecast_consecutive_days
      ⟨100, 100, [], [], []⟩ ⟨2024, 1, 1⟩ 3).2.2.2 0 2
      (by decide) (by decide)⟩

/-- The spec's scenario: zero initial balance, no recurring transactions,
a single one-time income of 500 dated on the third projected day. -/
def scenarioTracker : FinanceTracker :=
  ⟨0, 0, [], [], [⟨⟨2024, 1, 3⟩, 500, "income", "Gift", "green"⟩]⟩

/-- C3 counterexample: with initial balance 0 the projection emits exactly
one entry, not the five entries the claim demands — the running balance is
0 ≤ 0 already after day 1's (empty) transactions, so the loop breaks and
the day-3 income of 500 never appears. -/
theorem scenario_five_days_counterexample :
    (generate_daily_forecast scenarioTracker ⟨2024, 1, 1⟩ 5).length = 1 ∧
    (generate_daily_forecast scenarioTracker ⟨2024, 1, 1⟩ 5).length ≠ 5 := by
  decide

/-- C3 amended: for initial balance 0, no recurring transactions, a single
one-time income of +500 on day 3 and horizon 5, the output is exactly the
day-1 entry with balance 0 and no transactions: early termination fires
immediately because the balance 0 is ≤ 0 after day 1. -/
theorem scenario_five_days_amended :
    generate_daily_forecast scenarioTracker ⟨2024, 1, 1⟩ 5 =
      [⟨⟨2024, 1, 1⟩, [], 0⟩] := by decide

theorem if_any_filter_map {α β : Type} (l : List α) (p : α → Bool) (f : α → β) :
    (if l.any p then (l.filter p).map f else []) = (l.filter p).map f := by
  split
  · rfl
  · rename_i h
    have hf : l.filter p = [] := by
      rw [List.filter_eq_nil_iff]
      simpa using h
    rw [hf]
    rfl

/-- The redundant `if any(...)` guards of the source change nothing: each
block of `day_transactions` is exactly the filtered, mapped list. -/
theorem dayTransactions_eq (mi me : List Transaction)
    (sorted : List OneTimeTransaction) (d : Date) :
    dayTransactions mi me sorted d =
      (mi.filter fun i => i.day == d.day).map mkIncomeTx ++
      (me.filter fun e => e.day == d.day).map mkExpenseTx ++
      (sorted.filter fun t => t.date == d).map mkOneTimeTx := by
  unfold dayTransactions
  rw [if_any_filter_map, if_any_filter_map]

/-- C5: a recurring transaction contributes on a projected date exactly
when its day-of-month equals the date's day-of-month (the day's transaction
list is precisely the day-equality filters of the three collections), and
there is no end-of-month clamping: on a valid date of a month with at most
30 days, a recurring transaction configured with day 31 passes neither
day-equality filter, so it contributes nothing that month. -/
theorem dayTransactions_day_match (mi me : List Transaction)
    (sorted : List OneTimeTransaction) (d : Date) (tx : Transaction)
    (hd : d.day ≤ daysInMonth d.year d.month)
    (hshort : daysInMonth d.year d.month ≤ 30)
    (h31 : tx.day = 31) :
    dayTransactions mi me sorted d =
      (mi.filter fun i => i.day == d.day).map mkIncomeTx ++
      (me.filter fun e => e.day == d.day).map mkExpenseTx ++
      (sorted.filter fun t => t.date == d).map mkOneTimeTx ∧
    tx ∉ mi.filter (fun i => i.day == d.day) ∧
    tx ∉ me.filter (fun e => e.day == d.day) := by
  refine ⟨dayTransactions_eq mi me sorted d, ?_, ?_⟩ <;>
  · intro hmem
    have hbeq := List.of_mem_filter hmem
    have heq : tx.day = d.day := by simpa using hbeq
    omega

/-- Witness for C5: a day-31 recurring expense is filtered out on
2024-04-15, a date of the 30-day month April. -/
theorem dayTransactions_day_match_witness :
    (⟨31, 100, "Rent", "red"⟩ : Transaction) ∉
      ([⟨31, 100, "Rent", "red"⟩] : List Transaction).filter
        (fun i => i.day == (⟨2024, 4, 15⟩ : Date).day) :=
  (dayTransactions_day_match [⟨31, 100, "Rent", "red"⟩] [] [] ⟨2024, 4, 15⟩
    ⟨31, 100, "Rent", "red"⟩ (by decide) (by decide) rfl).2.1

theorem date_ble_refl (d : Date) : Date.ble d d = true := by
  simp [Date.ble]

theorem insertByDate_filter (x : OneTimeTransaction) (k : Date) :
    ∀ (l : List OneTimeTransaction),
      (insertByDate x l).filter (fun y => y.date == k) =
        if x.date == k then x :: l.filter (fun y => y.date == k)
        else l.filter (fun y => y.date == k) := by
  intro l
  induction l with
  | nil =>
    cases hx : x.date == k <;> simp [insertByDate, hx]
  | cons y ys ih =>
    simp only [insertByDate]
    by_cases hb : Date.ble x.date y.date = true
    · rw [if_pos hb]
      cases hx : x.date == k <;> simp [hx, List.filter_cons]
    · rw [if_neg hb]
      cases hx : x.date == k
      · simp only [List.filter_cons, ih, hx, if_neg]
        simp
      · have hxk : x.date = k := by simpa using hx
        have hyk : (y.date == k) = false := by
          cases hy : y.date == k
          · rfl
          · have : y.date = k := by simpa using hy
            rw [hxk, this, date_ble_refl] at hb
            exact absurd rfl hb
        simp [List.filter_cons, ih, hx, hyk]

/-- Filtering on an exact date commutes with the stable sort: the same-date
transactions appear in their original insertion order. -/
theorem sortByDate_filter (k : Date) :
    ∀ (l : List OneTimeTransaction),
      (sortByDate l).filter (fun y => y.date == k) =
        l.filter (fun y => y.date == k) := by
  intro l
  induction l with
  | nil => rfl
  | cons x xs ih =>
    simp only [sortByDate]
    rw [insertByDate_filter]
    cases hx : x.date == k <;> simp [hx, List.filter_cons, ih]

theorem forecastFrom_congr (mi me : List Transaction)
    (s1 s2 : List OneTimeTransaction)
    (h : ∀ d, dayTransactions mi me s1 d = dayTransactions mi me s2 d)
    (n : Nat) : ∀ (d : Date) (b : ℚ),
    forecastFrom mi me s1 d b n = forecastFrom mi me s2 d b n := by
  induction n with
  | zero => intro d b; rfl
  | succ n ih =>
    intro d b
    simp only [forecastFrom]
    rw [h d, ih]

/-- C6: the projection is deterministic — two invocations on the same
tracker, start date and horizon give the same output — and one-time
transactions sharing a date are applied in insertion order: on every date
the day's transaction list built from the date-sorted list equals the one
built from the unsorted stored list, so the whole forecast equals the
forecast computed without the pre-sort. -/
theorem generate_daily_forecast_deterministic (t : FinanceTracker) (s : Date)
    (n : Nat) (d : Date) :
    generate_daily_forecast t s n = generate_daily_forecast t s n ∧
    dayTransactions t.monthly_incomes t.monthly_expenses
        (sortByDate t.one_time_transactions) d =
      dayTransactions t.monthly_incomes t.monthly_expenses
        t.one_time_transactions d ∧
    generate_daily_forecast t s n =
      forecastFrom t.monthly_incomes t.monthly_expenses
        t.one_time_transactions s t.initial_balance n := by
  have hday : ∀ d0, dayTransactions t.monthly_incomes t.monthly_expenses
      (sortByDate t.one_time_transactions) d0 =
        dayTransactions t.monthly_incomes t.monthly_expenses
          t.one_time_transactions d0 := by
    intro d0
    rw [dayTransactions_eq, dayTransactions_eq, sortByDate_filter]
  exact ⟨rfl, hday d,
    forecastFrom_congr _ _ _ _ hday n s t.initial_balance⟩

/-- C7: the monthly add operations fail with the invalid-day error for
every day-of-month outside [1,31]; every add operation fails with the
invalid-amount error for every amount ≤ 0 (for the monthly operations the
day check runs first, so this is stated for in-range days); and for a day
in [1,31] and a positive amount every add operation succeeds. -/
theorem add_operations_validation (w : World) (day : Int) (amount : ℚ)
    (name : String) (oname : Option String) (color : String) (date : Date) :
    (¬(1 ≤ day ∧ day ≤ 31) →
      add_monthly_income w day amount name color =
        .error ("Day must be between 1 and 31", w) ∧
      add_monthly_expense w day amount name color =
        .error ("Day must be between 1 and 31", w)) ∧
    (1 ≤ day → day ≤ 31 → amount ≤ 0 →
      add_monthly_income w day amount name color =
        .error ("Income amount must be positive", w) ∧
      add_monthly_expense w day amount name color =
        .error ("Expense amount must be positive", w)) ∧
    (amount ≤ 0 →
      add_income w amount date oname color =
        .error ("Income amount must be positive", w) ∧
      add_expense w amount date oname color =
        .error ("Expense amount must be positive", w)) ∧
    (1 ≤ day → day ≤ 31 → 0 < amount →
      (∃ w1, add_monthly_income w day amount name color = .ok w1) ∧
      (∃ w2, add_monthly_expense w day amount name color = .ok w2)) ∧
    (0 < amount →
      (∃ w3, add_income w amount date oname color = .ok w3) ∧
      (∃ w4, add_expense w amount date oname color = .ok w4)) := by
  refine ⟨?_, ?_, ?_, ?_, ?_⟩
  · intro h
    constructor
    · unfold add_monthly_income
      rw [if_pos h]
    · unfold add_monthly_expense
      rw [if_pos h]
  · intro h1 h2 h3
    constructor
    · unfold add_monthly_income
      rw [if_neg (not_not_intro ⟨h1, h2⟩), if_pos h3]
    · unfold add_monthly_expense
      rw [if_neg (not_not_intro ⟨h1, h2⟩), if_pos h3]
  · intro h3
    constructor
    · unfold add_income
      rw [if_pos h3]
    · unfold add_expense
      rw [if_pos h3]
  · intro h1 h2 h3
    have hday : ¬¬(1 ≤ day ∧ day ≤ 31) := not_not_intro ⟨h1, h2⟩
    have hamt : ¬(amount ≤ 0) := not_le.mpr h3
    constructor
    · simp only [add_monthly_income, if_neg hday, if_neg hamt]
      exact ⟨_, rfl⟩
    · simp only [add_monthly_expense, if_neg hday, if_neg hamt]
      exact ⟨_, rfl⟩
  · intro h3
    have hamt : ¬(amount ≤ 0) := not_le.mpr h3
    constructor
    · simp only [add_income, if_neg hamt]
      exact ⟨_, rfl⟩
    · simp only [add_expense, if_neg hamt]
      exact ⟨_, rfl⟩

/-- Witness for C7: day 32 fails with the invalid-day error, amount −5
fails with the invalid-amount error, and a valid day with a positive
amount succeeds. -/
theorem add_operations_validation_witness :
    add_monthly_income ⟨⟨0, 0, [], [], []⟩, []⟩ 32 5 "Pay" "green" =
      .error ("Day must be between 1 and 31", ⟨⟨0, 0, [], [], []⟩, []⟩) ∧
    add_expense ⟨⟨0, 0, [], [], []⟩, []⟩ (-5) ⟨2024, 1, 1⟩ .none "red" =
      .error ("Expense amount must be positive", ⟨⟨0, 0, [], [], []⟩, []⟩) ∧
    (∃ w1, add_monthly_income ⟨⟨0, 0, [], [], []⟩, []⟩ 10 5 "Pay" "green" =
      .ok w1) :=
  ⟨((add_operations_validation ⟨⟨0, 0, [], [], []⟩, []⟩ 32 5 "Pay" .none
      "green" ⟨2024, 1, 1⟩).1 (by decide)).1,
   ((add_operations_validation ⟨⟨0, 0, [], [], []⟩, []⟩ 32 (-5) "Pay" .none
      "red" ⟨2024, 1, 1⟩).2.2.1 (by norm_num)).2,
   ((add_operations_validation ⟨⟨0, 0, [], [], []⟩, []⟩ 10 5 "Pay" .none
      "green" ⟨2024, 1, 1⟩).2.2.2.1 (by norm_num) (by norm_num)
      (by norm_num)).1⟩

/-- C8: every add operation that fails validation raises before mutating:
the world carried by the error — the tracker collections, balances, and the
persistence log — is exactly the input world, so the invalid entry is never
appended and no write is triggered. -/
theorem add_operations_error_frame (w : World) (day : Int) (amount : ℚ)
    (name : String) (oname : Option String) (color : String) (date : Date)
    (msg : String) (w' : World) :
    (add_monthly_income w day amount name color = .error (msg, w') →
      w' = w) ∧
    (add_monthly_expense w day amount name color = .error (msg, w') →
      w' = w) ∧
    (add_income w amount date oname color = .error (msg, w') → w' = w) ∧
    (add_expense w amount date oname color = .error (msg, w') → w' = w) := by
  refine ⟨?_, ?_, ?_, ?_⟩
  · intro h
    unfold add_monthly_income at h
    split at h
    · simp only [Except.error.injEq, Prod.mk.injEq] at h
      exact h.2.symm
    · split at h
      · simp only [Except.error.injEq, Prod.mk.injEq] at h
        exact h.2.symm
      · simp at h
  · intro h
    unfold add_monthly_expense at h
    split at h
    · simp only [Except.error.injEq, Prod.mk.injEq] at h
      exact h.2.symm
    · split at h
      · simp only [Except.error.injEq, Prod.mk.injEq] at h
        exact h.2.symm
      · simp at h
  · intro h
    unfold add_income at h
    split at h
    · simp only [Except.error.injEq, Prod.mk.injEq] at h
      exact h.2.symm
    · simp at h
  · intro h
    unfold add_expense at h
    split at h
    · simp only [Except.error.injEq, Prod.mk.injEq] at h
      exact h.2.symm
    · simp at h

/-- Witness for C8: a failing monthly-income add (day 32) hands back the
unchanged world. -/
theorem add_operations_error_frame_witness :
    (⟨⟨7, 7, [], [], []⟩, []⟩ : World) = ⟨⟨7, 7, [], [], []⟩, []⟩ :=
  (add_operations_error_frame ⟨⟨7, 7, [], [], []⟩, []⟩ 32 5 "Pay" .none
    "green" ⟨2024, 1, 1⟩ "Day must be between 1 and 31"
    ⟨⟨7, 7, [], [], []⟩, []⟩).1 rfl

/-- C9: `generate_daily_forecast` is a pure function of the tracker's
initial balance, recurring lists, one-time list (plus start date and
horizon): trackers agreeing on those four fields — in particular differing
in `current_balance` — produce identical forecasts.  In this embedding the
forecast returns only the entry list and takes the tracker by value, which
captures that the Python method reads `self` but assigns no field, calls no
`save_data`, and keeps no state between calls. -/
theorem generate_daily_forecast_pure (t1 t2 : FinanceTracker) (s : Date)
    (n : Nat) (hib : t1.initial_balance = t2.initial_balance)
    (hmi : t1.monthly_incomes = t2.monthly_incomes)
    (hme : t1.monthly_expenses = t2.monthly_expenses)
    (hot : t1.one_time_transactions = t2.one_time_transactions) :
    generate_daily_forecast t1 s n = generate_daily_forecast t2 s n := by
  unfold generate_daily_forecast
  rw [hib, hmi, hme, hot]

/-- Witness for C9: two trackers differing only in `current_balance`
produce the same forecast. -/
theorem generate_daily_forecast_pure_witness :
    generate_daily_forecast ⟨100, 42, [], [], []⟩ ⟨2024, 1, 1⟩ 2 =
      generate_daily_forecast ⟨100, 7, [], [], []⟩ ⟨2024, 1, 1⟩ 2 :=
  generate_daily_forecast_pure ⟨100, 42, [], [], []⟩ ⟨100, 7, [], [], []⟩
    ⟨2024, 1, 1⟩ 2 rfl rfl rfl rfl

/-- C10: `update_initial_balance` fails for every negative balance with the
world unchanged (the error carries the input world), and for every
balance ≥ 0 succeeds, setting both `initial_balance` and `current_balance`
to the given value and persisting the updated state. -/
theorem update_initial_balance_validation (w : World) (b : ℚ) :
    (b < 0 → update_initial_balance w b =
      .error ("Initial balance cannot be negative", w)) ∧
    (0 ≤ b → update_initial_balance w b =
      .ok { tracker := { w.tracker with
              initial_balance := b, current_balance := b },
            saves := w.saves ++ [{ w.tracker with
              initial_balance := b, current_balance := b }] }) := by
  constructor
  · intro h
    unfold update_initial_balance
    rw [if_pos h]
  · intro h
    unfold update_initial_balance
    rw [if_neg (not_lt.mpr h)]
    rfl

/-- Witness for C10: −1 is rejected leaving the world unchanged; 5 is
accepted, sets both balances to 5 and persists the new state. -/
theorem update_initial_balance_validation_witness :
    update_initial_balance ⟨⟨3, 4, [], [], []⟩, []⟩ (-1) =
      .error ("Initial balance cannot be negative", ⟨⟨3, 4, [], [], []⟩, []⟩) ∧
    update_initial_balance ⟨⟨3, 4, [], [], []⟩, []⟩ 5 =
      .ok ⟨⟨5, 5, [], [], []⟩, [⟨5, 5, [], [], []⟩]⟩ :=
  ⟨(update_initial_balance_validation ⟨⟨3, 4, [], [], []⟩, []⟩ (-1)).1
      (by norm_num),
   (update_initial_balance_validation ⟨⟨3, 4, [], [], []⟩, []⟩ 5).2
      (by norm_num)⟩

end App
